import Mathlib

/-!
Verification of the Topaz Upscaler orchestration node
(src/topaz_upscaler.py): a client for a remote asynchronous
image-processing API.  The Python module is shallowly embedded below:
module-level constants become Lean lists, the pure routing and dimension
logic become Lean functions, and the three network-facing stages
(submission, polling, download) become functions over explicit traces of
environment responses, so that every control-flow decision of the source
is a computable branch in Lean.
-/

namespace Topaz

/-! ## Mode and model allow-lists (src/topaz_upscaler.py lines 13-22) -/

def TOPAZ_MODES : List String := ["enhance", "sharpen", "denoise", "restore", "lighting"]

def ENHANCE_GAN_MODELS : List String :=
  ["Standard V2", "Low Resolution V2", "CGI", "High Fidelity V2", "Text Refine"]

def ENHANCE_GEN_MODELS : List String :=
  ["Redefine", "Recovery V2", "Standard MAX", "Wonder"]

def SHARPEN_GAN_MODELS : List String :=
  ["Standard", "Strong", "Lens Blur", "Lens Blur V2", "Motion Blur", "Natural", "Refocus"]

def SHARPEN_GEN_MODELS : List String := ["Super Focus V2"]

def DENOISE_GAN_MODELS : List String := ["Normal", "Strong", "Extreme"]

def RESTORE_GEN_MODELS : List String := ["Dust-Scratch"]

def LIGHTING_GAN_MODELS : List String := ["Adjust", "White Balance"]

/-! ## Output-format magic bytes (lines 30-35).
Bytes are modelled as natural numbers below 256. -/

def FORMAT_MAGIC_jpeg : List Nat := [0xff, 0xd8, 0xff]

def FORMAT_MAGIC_png : List Nat := [0x89, 0x50, 0x4e, 0x47, 0x0d, 0x0a, 0x1a, 0x0a]

def FORMAT_MAGIC_tiff : List (List Nat) :=
  [[0x49, 0x49, 0x2a, 0x00], [0x4d, 0x4d, 0x2a, 0x00]]

/-! ## Request Builder: endpoint routing (_get_submit_path, lines 94-107) -/

/-- The message of the ValueError raised at line 107:
`Invalid combination: mode='{mode}', model='{model}'`. -/
def invalidCombinationMsg (mode model : String) : String :=
  "Invalid combination: mode=\x27" ++ mode ++ "\x27, model=\x27" ++ model ++ "\x27"

/-- Direct translation of `_get_submit_path` (lines 94-107).  Each branch of
the Python if/elif chain that fails its membership tests falls through to the
`raise ValueError` at line 107, modelled as `.error`. -/
def getSubmitPath (mode model : String) : Except String String :=
  if mode = "enhance" then
    if model ∈ ENHANCE_GEN_MODELS then .ok "/enhance-gen/async"
    else if model ∈ ENHANCE_GAN_MODELS then .ok "/enhance/async"
    else .error (invalidCombinationMsg mode model)
  else if mode = "sharpen" then
    if model ∈ SHARPEN_GEN_MODELS then .ok "/sharpen-gen/async"
    else if model ∈ SHARPEN_GAN_MODELS then .ok "/sharpen/async"
    else .error (invalidCombinationMsg mode model)
  else if mode = "denoise" then
    if model ∈ DENOISE_GAN_MODELS then .ok "/denoise/async"
    else .error (invalidCombinationMsg mode model)
  else if mode = "restore" then
    if model ∈ RESTORE_GEN_MODELS then .ok "/restore-gen/async"
    else .error (invalidCombinationMsg mode model)
  else if mode = "lighting" then
    if model ∈ LIGHTING_GAN_MODELS then .ok "/lighting/async"
    else .error (invalidCombinationMsg mode model)
  else .error (invalidCombinationMsg mode model)

/-! ## Job Submitter (_submit_job, lines 109-123) -/

/-- The environment half of one submission exchange: the HTTP status of the
POST response, the optional `process_id` and `task_id` fields of its JSON
body, and the optional `X-Process-ID` response header.  (`task_id` is listed
because the spec discusses it; the source never reads it.) -/
structure SubmitResponse where
  status : Nat
  bodyProcessId : Option String
  bodyTaskId : Option String
  headerProcessId : Option String
deriving DecidableEq

/-- Python truthiness for an optional string: `None` and `""` are falsy. -/
def truthy : Option String → Bool
  | none => false
  | some s => s ≠ ""

/-- Lines 120-123:
`process_id = resp_json.get("process_id") or response.headers.get("X-Process-ID")`
followed by `if not process_id: raise ValueError("No process_id returned")`.
The `or` keeps the body field when it is truthy, otherwise falls back to the
header; the guard then rejects a falsy combined value. -/
def extractProcessId (r : SubmitResponse) : Except String String :=
  let pid := if truthy r.bodyProcessId then r.bodyProcessId else r.headerProcessId
  match pid with
  | some s => if s = "" then .error "No process_id returned" else .ok s
  | none => .error "No process_id returned"

inductive SubmitErr where
  | invalidCombo (msg : String)
  | httpError (code : Nat)
  | missingJobId
deriving DecidableEq

/-- `_submit_job` (lines 109-123): resolve the endpoint first (line 110; a
ValueError propagates before any network request), then POST (line 115,
counted in the second component), `raise_for_status` (line 116, raising on
any status of 400 or more), then extract the job id.  The second component
counts the network calls performed. -/
def submitJob (mode model : String) (r : SubmitResponse) :
    Except SubmitErr String × Nat :=
  match getSubmitPath mode model with
  | .error msg => (.error (.invalidCombo msg), 0)
  | .ok _ =>
    if 400 ≤ r.status then (.error (.httpError r.status), 1)
    else
      match extractProcessId r with
      | .ok pid => (.ok pid, 1)
      | .error _ => (.error .missingJobId, 1)

/-! ## Completion Poller (_wait_for_completion, lines 125-150) -/

/-- Python `str.lower()`, written over the character list so that it reduces
by computation. -/
def pyLower (s : String) : String := String.mk (s.data.map Char.toLower)

/-- Python `str.strip()` (leading and trailing whitespace removed), written
over the character list so that it reduces by computation. -/
def pyStrip (s : String) : String :=
  String.mk (((s.data.dropWhile Char.isWhitespace).reverse.dropWhile Char.isWhitespace).reverse)

/-- The environment half of one status poll at line 133:
`transportError` stands for any exception raised by `requests.get` itself or
by JSON decoding, `http404` for a 404 status (line 134), `httpError` for any
other status that makes `raise_for_status` throw at line 136, and `ok` for a
2xx response whose JSON carries the given `status` string and optional
`error` field. -/
inductive PollResp where
  | transportError
  | http404
  | httpError (code : Nat)
  | ok (status : String) (error : Option String)
deriving DecidableEq

/-- The outcomes the polling loop could produce.  `remoteJobFailed` and
`statusCheckFailed` are listed so the spec claims about them can be stated;
the proofs below settle whether the source ever produces them.
`traceEnded` marks a run that consumed its whole response trace while still
inside the deadline. -/
inductive PollOutcome where
  | completed
  | timedOut
  | remoteJobFailed (msg : String)
  | statusCheckFailed
  | traceEnded
deriving DecidableEq

/-- `_wait_for_completion` (lines 131-150), one trace element per iteration.
Elapsed time advances by the `time.sleep` amounts of the source: 5 seconds in
the 404 branch (line 135) and 8 seconds at line 149 otherwise.
The `while time.time() - start < timeout` guard is the outer `if`.

The branch for a lowercased-and-stripped status equal to "failed" mirrors
lines 145-147 exactly: the `raise Exception(f"Job failed: ...")` at line 146
sits inside the `try` whose blanket `except Exception` at line 147 catches
it, prints it, and lets the loop sleep 8 seconds and continue.  The net
effect of a reported remote failure is therefore the same as any transient
fault: keep polling. -/
def pollLoop (timeout : Nat) : Nat → List PollResp → PollOutcome
  | e, [] => if e < timeout then .traceEnded else .timedOut
  | e, r :: rest =>
    if e < timeout then
      match r with
      | .http404 => pollLoop timeout (e + 5) rest
      | .transportError => pollLoop timeout (e + 8) rest
      | .httpError _ => pollLoop timeout (e + 8) rest
      | .ok st _err =>
        if pyLower (pyStrip st) = "completed" then .completed
        else if pyLower (pyStrip st) = "failed" then
          pollLoop timeout (e + 8) rest
        else pollLoop timeout (e + 8) rest
    else .timedOut

/-! ## Result Fetcher (_download_result, lines 152-189) -/

/-- The environment half of the secondary request at line 170 (the fetch of
`download_url`): either `raise_for_status` throws at line 171, or the body
bytes arrive. -/
inductive ImgResp where
  | httpError (code : Nat)
  | ok (content : List Nat)
deriving DecidableEq

/-- The environment half of one download attempt at line 158:
`status409` is the conflict branch of line 161; `httpError` is any status
that makes `raise_for_status` throw at line 164 (404 included, since the
source has no 404 branch here); `okDirectBytes` is a 2xx response whose body
is not JSON, so `resp.json()` at line 165 raises; `okNoUrl` is a 2xx JSON
response with no truthy `download_url` field; `okUrl` is a 2xx JSON response
carrying a `download_url`, paired with the outcome of fetching it. -/
inductive FetchResp where
  | transportError
  | status409
  | httpError (code : Nat)
  | okDirectBytes (content : List Nat)
  | okNoUrl
  | okUrl (url : String) (img : ImgResp)
deriving DecidableEq

inductive DlOutcome where
  | content (bytes : List Nat)
  | exhausted
  | transportError
  | httpError (code : Nat)
  | jsonDecodeError
  | noDownloadUrl
  | imgHttpError (code : Nat)
  | traceEnded
deriving DecidableEq

/-- The format-validation block at lines 174-184: the body is accepted when
it starts with the magic bytes of the requested output format; any format
outside jpeg/png/tiff falls into the `else` (retry) branch.  The tiff rule
compares the first four bytes against the two byte-order signatures, exactly
as `content[:4] in FORMAT_MAGIC["tiff"]` does. -/
def magicOk (fmt : String) (content : List Nat) : Bool :=
  if fmt = "jpeg" then FORMAT_MAGIC_jpeg.isPrefixOf content
  else if fmt = "png" then FORMAT_MAGIC_png.isPrefixOf content
  else if fmt = "tiff" then FORMAT_MAGIC_tiff.contains (content.take 4)
  else false

/-- The body of `for attempt in range(8)` (lines 157-187), with the fuel
argument counting the remaining attempts.  Exhausting the fuel is the
`raise Exception("Failed to download valid image after retries")` at
line 189.  Only the 409 branch (line 161) and a failed magic-byte check
(lines 181-184) continue the loop; every `raise` in the body propagates,
since the loop contains no exception handler. -/
def dlLoop (fmt : String) : Nat → List FetchResp → DlOutcome
  | 0, _ => .exhausted
  | _ + 1, [] => .traceEnded
  | n + 1, r :: rest =>
    match r with
    | .transportError => .transportError
    | .status409 => dlLoop fmt n rest
    | .httpError c => .httpError c
    | .okDirectBytes _ => .jsonDecodeError
    | .okNoUrl => .noDownloadUrl
    | .okUrl _ img =>
      match img with
      | .httpError c => .imgHttpError c
      | .ok content =>
        if magicOk fmt content then .content content
        else dlLoop fmt n rest

/-- `_download_result` (lines 152-189): at most 8 attempts. -/
def downloadResult (fmt : String) (trace : List FetchResp) : DlOutcome :=
  dlLoop fmt 8 trace

/-! ## Output-dimension logic of `process` (lines 200-212) -/

/-- Lines 203-208.  The float multiplier is modelled by its exact rational
value `mNum / mDen` (with `mDen > 0`); at the concrete inputs used in the
theorems below the Python float arithmetic is exact, so the models agree.
`scale_multiplier > 1.0` becomes `mDen < mNum`.  Python `int()` truncates
toward zero, which for the nonnegative product `w * m` coincides with the
floor that `Nat` division computes, so `int(w * scale_multiplier)` becomes
`w * mNum / mDen`.  When the multiplier is not above 1.0 the source leaves
`output_width` and `output_height` exactly as supplied. -/
def computeOutputDims (w h : Nat) (mNum mDen : Nat) (ow oh : Nat) : Nat × Nat :=
  if mDen < mNum then
    (max 64 (min 32000 (w * mNum / mDen)),
     max 64 (min 32000 (h * mNum / mDen)))
  else (ow, oh)

/-! ## The orchestration (`process`, lines 191-265) -/

/-- One top-level invocation of `process`, with the environment responses it
will meet pre-recorded: whether saving the encoded input image succeeds
(line 239 sits inside the `with` block and BEFORE the `try` at line 242),
the submission exchange, the poll trace, and the download trace. -/
structure ProcEnv where
  apiKey : String
  mode : String
  model : String
  saveOk : Bool
  submitResp : SubmitResponse
  timeout : Nat
  pollTrace : List PollResp
  outputFormat : String
  dlTrace : List FetchResp
deriving DecidableEq

inductive ProcOutcome where
  | missingApiKey
  | saveError
  | submitError (e : SubmitErr)
  | pollTimedOut
  | pollTraceEnded
  | remoteJobFailed (msg : String)
  | statusCheckFailed
  | dlFailed (e : DlOutcome)
  | success (bytes : List Nat)
deriving DecidableEq

/-- `process` (lines 191-265).  The second component records whether the
temporary input file still exists when the call exits.  The file is created
with `delete=False` at line 238; the `try`/`finally` of lines 242-265
unlinks it on every exit of the `try` block, so every path that reaches the
`try` exits with the file gone.  An exception raised by `pil_img.save` at
line 239 occurs after the file exists but before the `try` is entered, so on
that path the file survives.  The check `if not api_key.strip()` (line 197)
happens before the file is created. -/
def process (env : ProcEnv) : ProcOutcome × Bool :=
  if pyStrip env.apiKey = "" then (.missingApiKey, false)
  else if env.saveOk = false then (.saveError, true)
  else
    let result :=
      match submitJob env.mode env.model env.submitResp with
      | (.error e, _) => ProcOutcome.submitError e
      | (.ok _pid, _) =>
        match pollLoop env.timeout 0 env.pollTrace with
        | .completed =>
          match downloadResult env.outputFormat env.dlTrace with
          | .content b => .success b
          | e => .dlFailed e
        | .timedOut => .pollTimedOut
        | .traceEnded => .pollTraceEnded
        | .remoteJobFailed m => .remoteJobFailed m
        | .statusCheckFailed => .statusCheckFailed
    (result, false)

/-! ## Specification-side definitions.
These follow the words of the spec sentences under test, to be compared
against the source-derived functions above. -/

/-- The generative-family allow-list of a mode, per the spec: the models of
a mode that route to the `-gen` variant endpoint. -/
def genFamilyOf (mode : String) : List String :=
  if mode = "enhance" then ENHANCE_GEN_MODELS
  else if mode = "sharpen" then SHARPEN_GEN_MODELS
  else if mode = "restore" then RESTORE_GEN_MODELS
  else []

/-- The standard-family allow-list of a mode, per the spec. -/
def ganFamilyOf (mode : String) : List String :=
  if mode = "enhance" then ENHANCE_GAN_MODELS
  else if mode = "sharpen" then SHARPEN_GAN_MODELS
  else if mode = "denoise" then DENOISE_GAN_MODELS
  else if mode = "lighting" then LIGHTING_GAN_MODELS
  else []

/-- A (mode, model) pair inside the allow-lists. -/
abbrev allowedPair (mode model : String) : Prop :=
  model ∈ genFamilyOf mode ∨ model ∈ ganFamilyOf mode

/-- The endpoint the spec prescribes for an allow-listed pair: the `-gen`
variant of the mode endpoint for the generative family, the base endpoint
otherwise. -/
def expectedEndpoint (mode model : String) : String :=
  if model ∈ genFamilyOf mode then "/" ++ mode ++ "-gen/async"
  else "/" ++ mode ++ "/async"

/-- The dimension formula of claim C3, following its words:
`clamp(round(src TIMES m), 1, 32000)` with the multiplier `mNum / mDen` and
`round(x)` computed as `floor(x + 1/2)`.  (The concrete refutation below
avoids rounding ties and clamp saturation, so it is insensitive to the
half-way tie rule and to the exact lower clamp bound.) -/
def specClaimDim (src mNum mDen : Nat) : Nat :=
  max 1 (min 32000 ((2 * src * mNum + mDen) / (2 * mDen)))

/-- The dimension formula as the source actually computes it (truncation
and a lower clamp of 64), stated independently for comparison. -/
def specAmendedDim (src mNum mDen : Nat) : Nat :=
  max 64 (min 32000 (src * mNum / mDen))

/-- The job-id extraction of claim C8, following its words: an ordered list
of strategies — primary body field `process_id`, fallback body field
`task_id`, then the designated header — where the first truthy result
wins. -/
def specExtractJobId (r : SubmitResponse) : Except String String :=
  if truthy r.bodyProcessId then .ok (r.bodyProcessId.getD "")
  else if truthy r.bodyTaskId then .ok (r.bodyTaskId.getD "")
  else if truthy r.headerProcessId then .ok (r.headerProcessId.getD "")
  else .error "No process_id returned"

/-- Claim C4 as stated: there is a bound `k` of consecutive transport
faults after which the poll loop fails with `StatusCheckFailed`, whatever
comes afterwards and whatever the deadline. -/
def claimC4 : Prop :=
  ∃ k : Nat, 0 < k ∧ ∀ (timeout : Nat) (rest : List PollResp),
    pollLoop timeout 0 (List.replicate k .transportError ++ rest) = .statusCheckFailed

/-! ## Helper lemmas -/

/-- The polling loop has no `StatusCheckFailed` outcome: no branch of
`_wait_for_completion` produces one. -/
lemma pollLoop_ne_statusCheckFailed (timeout e : Nat) (tr : List PollResp) :
    pollLoop timeout e tr ≠ .statusCheckFailed := by
  induction tr generalizing e with
  | nil =>
    simp only [pollLoop]
    split <;> simp
  | cons r rest ih =>
    by_cases he : e < timeout
    · cases r with
      | transportError => simpa [pollLoop, he] using ih (e + 8)
      | http404 => simpa [pollLoop, he] using ih (e + 5)
      | httpError c => simpa [pollLoop, he] using ih (e + 8)
      | ok st err =>
        simp only [pollLoop, if_pos he]
        split
        · simp
        · split <;> exact ih (e + 8)
    · simp [pollLoop, he]

/-- Consecutive transport faults only advance the clock: after `n` faults
within the deadline, a successful "completed" poll terminates the loop. -/
lemma pollLoop_faults_then_completed (n : Nat) :
    ∀ (e timeout : Nat), e + 8 * n < timeout →
      pollLoop timeout e (List.replicate n .transportError ++ [.ok "completed" none]) =
        .completed := by
  induction n with
  | zero =>
    intro e timeout h
    simp only [Nat.mul_zero, Nat.add_zero] at h
    simp only [List.replicate, List.nil_append, pollLoop, if_pos h]
    rfl
  | succ n ih =>
    intro e timeout h
    have he : e < timeout := by omega
    simp only [List.replicate, List.cons_append, pollLoop, if_pos he]
    exact ih (e + 8) timeout (by omega)

/-- Whatever `_download_result` returns as content has passed the
magic-byte validation of the requested format. -/
lemma dlLoop_content_magic (fmt : String) :
    ∀ (n : Nat) (tr : List FetchResp) (b : List Nat),
      dlLoop fmt n tr = .content b → magicOk fmt b = true := by
  intro n
  induction n with
  | zero => intro tr b h; simp [dlLoop] at h
  | succ n ih =>
    intro tr b h
    cases tr with
    | nil => simp [dlLoop] at h
    | cons r rest =>
      cases r with
      | transportError => simp [dlLoop] at h
      | status409 => exact ih rest b h
      | httpError c => simp [dlLoop] at h
      | okDirectBytes c => simp [dlLoop] at h
      | okNoUrl => simp [dlLoop] at h
      | okUrl u img =>
        cases img with
        | httpError c => simp [dlLoop] at h
        | ok content =>
          by_cases hm : magicOk fmt content = true
          · simp only [dlLoop, hm, if_pos] at h
            cases h
            exact hm
          · have hstep :
                dlLoop fmt (n + 1) (FetchResp.okUrl u (ImgResp.ok content) :: rest) =
                  dlLoop fmt n rest := by
              simp [dlLoop, hm]
            exact ih rest b (hstep ▸ h)

/-! ## Claim theorems -/

/-- C1: the claim says a successful status query reporting "failed" must
terminate polling immediately with a remote-job-failure error that
propagates to the caller.  The source violates this: the `raise` at
line 146 is caught by its own blanket `except` at line 147, so polling
continues.  This theorem evaluates the model at the failing input: a trace
of "failed" responses ends in the wall-clock `TimeoutError` rather than a
remote-failure error, and a "failed" response followed by a later
"completed" response even ends in success — the loop polled on past the
reported failure. -/
theorem c1_reported_failure_not_propagated :
    pollLoop 20 0 [.ok "failed" (some "boom"), .ok "failed" (some "boom"),
      .ok "failed" (some "boom")] = .timedOut ∧
    pollLoop 35 0 ([.ok "failed" (some "boom")] ++ List.replicate 3 .transportError ++
      [.ok "completed" none]) = .completed := by decide

/-- C2: for each requested output format, (1) any body the fetcher returns
as content passed the magic-byte validation — a 200 response whose body
does not begin with the format signature is never returned — and (2) a run
whose eight attempts all deliver a non-matching body exhausts the attempt
budget and ends in the terminal download-validation failure of line 189. -/
theorem c2_download_magic_validation :
    ∀ fmt ∈ (["jpeg", "png", "tiff"] : List String),
      (∀ (trace : List FetchResp) (b : List Nat),
        downloadResult fmt trace = .content b → magicOk fmt b = true) ∧
      (∀ (url : String) (bad : List Nat), magicOk fmt bad = false →
        downloadResult fmt (List.replicate 8 (.okUrl url (.ok bad))) = .exhausted) := by
  intro fmt _
  refine ⟨fun trace b h => dlLoop_content_magic fmt 8 trace b h, ?_⟩
  intro url bad h
  simp [downloadResult, List.replicate_succ, List.replicate_zero, dlLoop, h]

/-- Witness for C2 at format "jpeg" and the non-image body
`[60, 104, 116]` (the ASCII of an HTML page opening). -/
theorem c2_download_magic_validation_witness :
    downloadResult "jpeg" (List.replicate 8 (.okUrl "u" (.ok [60, 104, 116]))) = .exhausted :=
  (c2_download_magic_validation "jpeg" (by simp)).2 "u" [60, 104, 116] (by decide)

/-- C3 counterexample: at source dimensions 101 by 101 and multiplier 7/4
(the float 1.75, exact in binary), the source computes
`int(101 * 1.75) = 176` while the claim formula `clamp(round(101 * 1.75))`
gives 177 — the source truncates where the claim says round.  (Both values
are strictly inside the clamp range, so the refutation does not depend on
the clamp bounds.) -/
theorem c3_multiplier_dims_cex :
    computeOutputDims 101 101 7 4 500 600 = (176, 176) ∧
    specClaimDim 101 7 4 = 177 ∧
    computeOutputDims 101 101 7 4 500 600 ≠ (specClaimDim 101 7 4, specClaimDim 101 7 4) := by
  decide

/-- C3 amended: for a multiplier strictly above 1.0 the submitted
dimensions are `clamp(trunc(src TIMES m), 64, 32000)` — truncation rather
than rounding, with a lower clamp of 64 — and for any multiplier at most
1.0 (the slider minimum is 1.0) the explicitly supplied width and height
pass through untouched. -/
theorem c3_multiplier_dims_amended (w h mNum mDen ow oh : Nat) :
    (mDen < mNum → computeOutputDims w h mNum mDen ow oh =
        (specAmendedDim w mNum mDen, specAmendedDim h mNum mDen)) ∧
    (mNum ≤ mDen → computeOutputDims w h mNum mDen ow oh = (ow, oh)) := by
  constructor
  · intro hlt; simp [computeOutputDims, specAmendedDim, hlt]
  · intro hle; simp [computeOutputDims, Nat.not_lt.mpr hle]

/-- Witness for C3 amended: multiplier 2 on a 100 by 200 source gives
200 by 400; multiplier 1 passes the explicit 512 by 512 through. -/
theorem c3_multiplier_dims_amended_witness :
    computeOutputDims 100 200 2 1 0 0 = (200, 400) ∧
    computeOutputDims 100 200 1 1 512 512 = (512, 512) := by
  constructor
  · rw [(c3_multiplier_dims_amended 100 200 2 1 0 0).1 (by decide)]; decide
  · rw [(c3_multiplier_dims_amended 100 200 1 1 512 512).2 (by decide)]

/-- C4 counterexample: no bound of consecutive transport faults makes the
poll loop fail with `StatusCheckFailed` — the source has no fault counter
and no such error; faults are retried until the wall-clock deadline. -/
theorem c4_fault_counter_cex : ¬ claimC4 := by
  rintro ⟨k, -, hall⟩
  exact pollLoop_ne_statusCheckFailed 1000 0 _ (hall 1000 [])

/-- C4 amended: the poll loop never produces `StatusCheckFailed` (there is
no fault counter), and any number of consecutive transport faults followed
by one successful "completed" poll inside the deadline ends in success —
in particular the claim's reset scenario (max-minus-one faults then one
success does not raise `StatusCheckFailed`) holds vacuously. -/
theorem c4_fault_tolerance_amended :
    (∀ (timeout e : Nat) (tr : List PollResp),
      pollLoop timeout e tr ≠ .statusCheckFailed) ∧
    (∀ (n timeout : Nat), 8 * n < timeout →
      pollLoop timeout 0 (List.replicate n .transportError ++ [.ok "completed" none]) =
        .completed) := by
  refine ⟨pollLoop_ne_statusCheckFailed, ?_⟩
  intro n timeout h
  exact pollLoop_faults_then_completed n 0 timeout (by omega)

/-- Witness for C4 amended: six consecutive transport faults and then one
success, within a 300-second deadline, completes. -/
theorem c4_fault_tolerance_amended_witness :
    pollLoop 300 0 (List.replicate 6 .transportError ++ [.ok "completed" none]) = .completed :=
  c4_fault_tolerance_amended.2 6 300 (by decide)

/-- C5: every (mode, model) pair inside the allow-lists resolves to exactly
one endpoint — the `-gen` variant of the mode endpoint for the generative
family, the base endpoint otherwise — and every pair outside all
allow-lists yields the invalid-combination error naming both values, with
zero network calls performed by the submission routine. -/
theorem c5_endpoint_routing (mode model : String) (r : SubmitResponse) :
    (allowedPair mode model →
      getSubmitPath mode model = .ok (expectedEndpoint mode model)) ∧
    (¬ allowedPair mode model →
      getSubmitPath mode model = .error (invalidCombinationMsg mode model) ∧
      (submitJob mode model r).2 = 0) := by
  have hsub : ∀ msg, getSubmitPath mode model = .error msg →
      (submitJob mode model r).2 = 0 := by
    intro msg h
    simp [submitJob, h]
  constructor
  · intro h
    unfold allowedPair genFamilyOf ganFamilyOf at h
    unfold getSubmitPath expectedEndpoint genFamilyOf
    split_ifs <;> simp_all
  · intro h
    unfold allowedPair genFamilyOf ganFamilyOf at h
    push_neg at h
    have herr : getSubmitPath mode model = .error (invalidCombinationMsg mode model) := by
      unfold getSubmitPath
      split_ifs <;> simp_all
    exact ⟨herr, hsub _ herr⟩

/-- Witness for C5: the generative enhance model "Redefine" resolves to the
`-gen` endpoint, and the disallowed pair (denoise, Wonder) errors with no
network call. -/
theorem c5_endpoint_routing_witness :
    getSubmitPath "enhance" "Redefine" = .ok (expectedEndpoint "enhance" "Redefine") ∧
    (getSubmitPath "denoise" "Wonder" = .error (invalidCombinationMsg "denoise" "Wonder") ∧
      (submitJob "denoise" "Wonder" ⟨200, some "id", none, none⟩).2 = 0) :=
  ⟨(c5_endpoint_routing "enhance" "Redefine" ⟨200, some "id", none, none⟩).1 (by decide),
   (c5_endpoint_routing "denoise" "Wonder" ⟨200, some "id", none, none⟩).2 (by decide)⟩

/-- C6 counterexample: a result endpoint answering with the image bytes
directly (a 200 whose body is not JSON) is not accepted: `resp.json()` at
line 165 raises and the bytes are lost, even when they carry a valid JPEG
signature.  Only the indirection shape is supported. -/
theorem c6_direct_bytes_cex :
    downloadResult "jpeg" [.okDirectBytes [0xff, 0xd8, 0xff]] = .jsonDecodeError ∧
    downloadResult "jpeg" [.okDirectBytes [0xff, 0xd8, 0xff]] ≠
      .content [0xff, 0xd8, 0xff] := by decide

/-- C6 amended: the fetcher supports only the indirection shape — a JSON
body whose `download_url` is followed with a second request, whose bytes
are returned when they pass validation; a direct-bytes response aborts the
download with a JSON decode failure on any attempt. -/
theorem c6_delivery_shape_amended (fmt url : String) (good bytes : List Nat)
    (rest : List FetchResp) :
    (magicOk fmt good = true → downloadResult fmt [.okUrl url (.ok good)] = .content good) ∧
    downloadResult fmt (.okDirectBytes bytes :: rest) = .jsonDecodeError := by
  constructor
  · intro h; simp [downloadResult, dlLoop, h]
  · rfl

/-- Witness for C6 amended: an indirection response whose secondary fetch
returns JPEG-signed bytes is returned as content. -/
theorem c6_delivery_shape_amended_witness :
    downloadResult "jpeg" [.okUrl "u" (.ok [0xff, 0xd8, 0xff, 0xe0])] =
      .content [0xff, 0xd8, 0xff, 0xe0] :=
  (c6_delivery_shape_amended "jpeg" "u" [0xff, 0xd8, 0xff, 0xe0] [] []).1 (by decide)

/-- C7 counterexample: a 404 at the result-fetch stage is NOT treated as
transient: `raise_for_status` at line 164 raises immediately and the
download aborts, even though a valid image would have arrived on the next
attempt; a 409 by contrast is retried and that next attempt succeeds. -/
theorem c7_notready_404_cex :
    downloadResult "jpeg" [.httpError 404, .okUrl "u" (.ok [0xff, 0xd8, 0xff, 0xe0])] =
      .httpError 404 ∧
    downloadResult "jpeg" [.httpError 404, .okUrl "u" (.ok [0xff, 0xd8, 0xff, 0xe0])] ≠
      .content [0xff, 0xd8, 0xff, 0xe0] ∧
    downloadResult "jpeg" [.status409, .okUrl "u" (.ok [0xff, 0xd8, 0xff, 0xe0])] =
      .content [0xff, 0xd8, 0xff, 0xe0] := by decide

/-- C7 amended: only a 409 conflict is treated as a transient
not-yet-ready condition — wait three seconds and retry, within the
8-attempt budget (eight straight conflicts exhaust it) — while a 404, like
any other HTTP error status at this stage, raises immediately on first
occurrence. -/
theorem c7_transient_conflict_amended (fmt : String) (rest : List FetchResp) (c : Nat) :
    downloadResult fmt (.status409 :: rest) = dlLoop fmt 7 rest ∧
    downloadResult fmt (.httpError c :: rest) = .httpError c ∧
    downloadResult fmt (List.replicate 8 .status409) = .exhausted :=
  ⟨rfl, rfl, rfl⟩

/-- C8 counterexample: a submission response whose body carries only a
`task_id` yields no job identifier — the source reads only `process_id`
and the `X-Process-ID` header — while the claim's ordered-strategy
extraction would have accepted "abc" from the fallback body field. -/
theorem c8_taskid_fallback_cex :
    extractProcessId ⟨200, none, some "abc", none⟩ = .error "No process_id returned" ∧
    specExtractJobId ⟨200, none, some "abc", none⟩ = .ok "abc" := ⟨rfl, rfl⟩

/-- C8 amended: the extraction tries exactly two strategies in order — the
`process_id` body field, then the `X-Process-ID` header — where the first
truthy (present and non-empty) value wins; if both are falsy, submission
fails with the missing-job-id error; the `task_id` field is never
consulted. -/
theorem c8_id_extraction_amended (r : SubmitResponse) :
    (truthy r.bodyProcessId = true →
      extractProcessId r = .ok (r.bodyProcessId.getD "")) ∧
    (truthy r.bodyProcessId = false → truthy r.headerProcessId = true →
      extractProcessId r = .ok (r.headerProcessId.getD "")) ∧
    (truthy r.bodyProcessId = false → truthy r.headerProcessId = false →
      extractProcessId r = .error "No process_id returned") ∧
    (∀ t, extractProcessId { r with bodyTaskId := t } = extractProcessId r) := by
  obtain ⟨st, bp, bt, hp⟩ := r
  refine ⟨?_, ?_, ?_, fun t => rfl⟩
  · intro h
    cases bp with
    | none => simp [truthy] at h
    | some s =>
      simp only [truthy, decide_eq_true_eq] at h
      simp [extractProcessId, truthy, h]
  · intro h1 h2
    cases hp with
    | none => simp [truthy] at h2
    | some s =>
      simp only [truthy, decide_eq_true_eq] at h2
      cases bp with
      | none => simp [extractProcessId, truthy, h2]
      | some b =>
        simp only [truthy, decide_eq_false_iff_not, not_not] at h1
        subst h1
        simp [extractProcessId, truthy, h2]
  · intro h1 h2
    cases bp with
    | none =>
      cases hp with
      | none => simp [extractProcessId, truthy]
      | some s =>
        simp only [truthy, decide_eq_false_iff_not, not_not] at h2
        subst h2
        simp [extractProcessId, truthy]
    | some b =>
      simp only [truthy, decide_eq_false_iff_not, not_not] at h1
      subst h1
      cases hp with
      | none => simp [extractProcessId, truthy]
      | some s =>
        simp only [truthy, decide_eq_false_iff_not, not_not] at h2
        subst h2
        simp [extractProcessId, truthy]

/-- Witness for C8 amended: an empty-string `process_id` is falsy, so the
header value "hdr" wins. -/
theorem c8_id_extraction_amended_witness :
    extractProcessId ⟨200, some "", none, some "hdr"⟩ = .ok "hdr" :=
  (c8_id_extraction_amended ⟨200, some "", none, some "hdr"⟩).2.1 (by decide) (by decide)

/-- C9 counterexample: when saving the encoded input image raises (the
`pil_img.save` at line 239 runs after the temporary file is created with
`delete=False` but before the `try` at line 242 is entered), the call
exits with the temporary file still on disk. -/
theorem c9_temp_cleanup_cex :
    process ⟨"key", "enhance", "Standard V2", false, ⟨200, some "id", none, none⟩,
      300, [], "jpeg", []⟩ = (.saveError, true) := by decide

/-- C9 amended: on every run in which encoding the input image succeeds,
the `finally` of lines 263-265 removes the temporary file on every exit
path of the orchestration — success, any raised error, or timeout; only a
failure of the save step itself, before the `try` is entered, leaks it. -/
theorem c9_temp_cleanup_amended (env : ProcEnv) (h : env.saveOk = true) :
    (process env).2 = false := by
  simp only [process, h]
  split <;> rfl

/-- Witness for C9 amended: a successful end-to-end run exits with the
temporary file deleted. -/
theorem c9_temp_cleanup_amended_witness :
    (process ⟨"key", "enhance", "Standard V2", true, ⟨200, some "id", none, none⟩,
      300, [.ok "completed" none], "jpeg", [.okUrl "u" (.ok [0xff, 0xd8, 0xff])]⟩).2 = false :=
  c9_temp_cleanup_amended _ rfl

/-- C10: a non-409 success response whose JSON body lacks a truthy
`download_url` aborts the whole download immediately with the
missing-url error, regardless of what later attempts would have returned —
while a failed magic-byte check and a 409 continue into the remaining
attempts. -/
theorem c10_missing_download_url_aborts (fmt url : String) (rest : List FetchResp)
    (bad : List Nat) :
    downloadResult fmt (.okNoUrl :: rest) = .noDownloadUrl ∧
    (magicOk fmt bad = false →
      downloadResult fmt (.okUrl url (.ok bad) :: rest) = dlLoop fmt 7 rest) ∧
    downloadResult fmt (.status409 :: rest) = dlLoop fmt 7 rest := by
  refine ⟨rfl, ?_, rfl⟩
  intro h
  simp [downloadResult, dlLoop, h]

/-- Witness for C10 at format "jpeg" and a non-matching body `[60, 104]`. -/
theorem c10_missing_download_url_aborts_witness :
    downloadResult "jpeg" [.okUrl "u" (.ok [60, 104]), .okNoUrl] = dlLoop "jpeg" 7 [.okNoUrl] :=
  (c10_missing_download_url_aborts "jpeg" "u" [.okNoUrl] [60, 104]).2.1 (by decide)

end Topaz
